import Mathlib

/-!
# Verification of the go-n8n workflow execution engine spec

Shallow embedding of the engine's domain types and operations:
* the execution entity and its status transitions (package `execution`),
* the node registry (package `node`),
* the item-processing helper `ProcessItems`,
* the execution graph builder, the data-flow store and the retry loop,
  which the repository describes in its spec but whose implementation is
  not among the engine source files; those are modelled from the spec.

Go `time.Time` values are modelled as `Int` milliseconds, Go maps
`map[string]interface{}` as a type parameter `D`, and Go's string-backed
status enum `type ExecutionStatus string` as `String` together with the
named constants.
-/

namespace GoN8n

/-! ## Execution domain (package `execution`) -/

/-- Go: `type ExecutionStatus string`. Any string is a value of the type;
the named constants below are the ones the code declares. -/
abbrev ExecutionStatus := String

def executionStatusWaiting : ExecutionStatus := "waiting"

def executionStatusRunning : ExecutionStatus := "running"

def executionStatusSuccess : ExecutionStatus := "success"

def executionStatusError : ExecutionStatus := "error"

def executionStatusCancelled : ExecutionStatus := "cancelled"

def executionStatusCrashed : ExecutionStatus := "crashed"

def executionStatusTimeout : ExecutionStatus := "timeout"

/-- The status constants declared by the source, in declaration order. -/
def executionStatusValues : List ExecutionStatus :=
  [executionStatusWaiting, executionStatusRunning, executionStatusSuccess,
   executionStatusError, executionStatusCancelled, executionStatusCrashed,
   executionStatusTimeout]

/-- Go: `func (s ExecutionStatus) IsTerminal() bool` — a `switch` that
returns `true` for success, error, cancelled, crashed and timeout. -/
def ExecutionStatus.IsTerminal (s : ExecutionStatus) : Bool :=
  s == executionStatusSuccess || s == executionStatusError ||
  s == executionStatusCancelled || s == executionStatusCrashed ||
  s == executionStatusTimeout

/-- Go: `func (s ExecutionStatus) IsRunning() bool`. -/
def ExecutionStatus.IsRunning (s : ExecutionStatus) : Bool :=
  s == executionStatusRunning || s == executionStatusWaiting

/-- Go: `type ExecutionMode string`. -/
abbrev ExecutionMode := String

def executionModeManual : ExecutionMode := "manual"

def executionModeRetry : ExecutionMode := "retry"

/-- Go: `type Execution struct` (package `execution`). `D` stands for the
JSON object type `map[string]interface{}`; times are `Int` milliseconds
since some epoch, so `time.Time` becomes `Int` and `*time.Time` becomes
`Option Int`. -/
structure Execution (D : Type) where
  ID : String
  WorkflowID : String
  WorkflowVersion : Int
  Status : ExecutionStatus
  Mode : ExecutionMode
  StartedAt : Int
  FinishedAt : Option Int
  ExecutionTimeMs : Int
  InputData : D
  OutputData : D
  ErrorMessage : String
  ErrorNode : String
  RetryOf : Option String
  RetryCount : Int
  CreatedAt : Int

variable {D : Type}

/-- Go: `func (e *Execution) Start()`. `now` stands for `time.Now()`. -/
def Execution.start (e : Execution D) (now : Int) : Execution D :=
  { e with Status := executionStatusRunning, StartedAt := now }

/-- Go: `func (e *Execution) finish()` — sets the finish time and computes
the elapsed milliseconds since `StartedAt`. -/
def Execution.finish (e : Execution D) (now : Int) : Execution D :=
  { e with FinishedAt := some now, ExecutionTimeMs := now - e.StartedAt }

/-- Go: `func (e *Execution) Complete(outputData map[string]interface{})`. -/
def Execution.complete (e : Execution D) (outputData : D) (now : Int) : Execution D :=
  ({ e with Status := executionStatusSuccess,
            OutputData := outputData } : Execution D).finish now

/-- Go: `func (e *Execution) Fail(err error, nodeID string)`; `errMsg`
stands for `err.Error()`. -/
def Execution.fail (e : Execution D) (errMsg : String) (nodeID : String) (now : Int) :
    Execution D :=
  ({ e with Status := executionStatusError,
            ErrorMessage := errMsg,
            ErrorNode := nodeID } : Execution D).finish now

/-- Go: `func (e *Execution) Cancel()`. -/
def Execution.cancel (e : Execution D) (now : Int) : Execution D :=
  ({ e with Status := executionStatusCancelled } : Execution D).finish now

/-- Go: `func (e *Execution) Timeout()`. -/
def Execution.timeout (e : Execution D) (now : Int) : Execution D :=
  ({ e with Status := executionStatusTimeout } : Execution D).finish now

/-- Go: `type RetryPolicy struct` (durations in milliseconds; the Go
field `BackoffFactor float64` is modelled as `Int` — the spec only ever
uses integral factors). -/
structure RetryPolicy where
  MaxRetries : Int
  RetryInterval : Int
  BackoffFactor : Int
  MaxRetryInterval : Int

/-- Go: `func (e *Execution) CanRetry(policy RetryPolicy) bool`. -/
def Execution.canRetry (e : Execution D) (policy : RetryPolicy) : Bool :=
  e.Status == executionStatusError && e.RetryCount < policy.MaxRetries

/-- Go: `func (e *Execution) CreateRetry() *Execution`; `newId` stands for
`uuid.New()` and `now` for `time.Now()`. Unset Go struct fields carry their
zero value (`""`, `0`, `nil`), passed here as `zeroD` for the data map. -/
def Execution.createRetry (e : Execution D) (newId : String) (now : Int) (zeroD : D) :
    Execution D :=
  { ID := newId
    WorkflowID := e.WorkflowID
    WorkflowVersion := e.WorkflowVersion
    Status := executionStatusWaiting
    Mode := executionModeRetry
    StartedAt := 0
    FinishedAt := none
    ExecutionTimeMs := 0
    InputData := e.InputData
    OutputData := zeroD
    ErrorMessage := ""
    ErrorNode := ""
    RetryOf := some e.ID
    RetryCount := e.RetryCount + 1
    CreatedAt := now }

/-- Go: `type NodeExecution struct` (package `execution`) — the per-node
run state. Its `Status` field has the same string-backed `ExecutionStatus`
type as the execution itself. -/
structure NodeExecution (D : Type) where
  ID : String
  ExecutionID : String
  NodeID : String
  NodeType : String
  NodeName : String
  Status : ExecutionStatus
  InputData : D
  OutputData : D
  ErrorMessage : String
  ExecutionTimeMs : Int
  StartedAt : Int
  FinishedAt : Option Int
  RetryCount : Int

/-- An execution value already in the terminal status Success, used to
exercise the transition operations on a finished execution. -/
def execDone : Execution Unit :=
  { ID := "e1", WorkflowID := "w1", WorkflowVersion := 1,
    Status := executionStatusSuccess, Mode := executionModeManual,
    StartedAt := 0, FinishedAt := some 10, ExecutionTimeMs := 10,
    InputData := (), OutputData := (), ErrorMessage := "", ErrorNode := "",
    RetryOf := none, RetryCount := 0, CreatedAt := 0 }

/-- The fields of an execution that no transition operation touches. -/
def Execution.coreUnchanged (after before : Execution D) : Prop :=
  after.ID = before.ID ∧ after.WorkflowID = before.WorkflowID ∧
  after.WorkflowVersion = before.WorkflowVersion ∧ after.Mode = before.Mode ∧
  after.InputData = before.InputData ∧ after.RetryOf = before.RetryOf ∧
  after.RetryCount = before.RetryCount ∧ after.CreatedAt = before.CreatedAt

/-- C1 counterexample: an execution whose status is terminal (Success) is
not immutable — a later call to `Start` changes its status to Running. -/
theorem execution_terminal_not_immutable :
    ExecutionStatus.IsTerminal execDone.Status = true ∧
    (execDone.start 20).Status ≠ execDone.Status := by
  constructor
  · decide
  · simp [execDone, Execution.start, executionStatusRunning, executionStatusSuccess]

/-- C1 (amended): each transition operation overwrites the status with its
own target value unconditionally, regardless of the current status; in
particular, on an execution whose status is terminal, a later `Start` call
still changes the status, so a terminal status is not immutable. -/
theorem execution_transitions_unconditional (e : Execution D) (now : Int) (out : D)
    (msg nid : String) (hterm : ExecutionStatus.IsTerminal e.Status = true) :
    (e.start now).Status = executionStatusRunning ∧
    (e.complete out now).Status = executionStatusSuccess ∧
    (e.fail msg nid now).Status = executionStatusError ∧
    (e.cancel now).Status = executionStatusCancelled ∧
    (e.timeout now).Status = executionStatusTimeout ∧
    (e.start now).Status ≠ e.Status := by
  refine ⟨rfl, rfl, rfl, rfl, rfl, ?_⟩
  simp only [ExecutionStatus.IsTerminal, Bool.or_eq_true, beq_iff_eq] at hterm
  simp only [Execution.start]
  rcases hterm with ((((h | h) | h) | h) | h) <;> rw [h] <;> decide

/-- Witness for C1 (amended) at the concrete finished execution. -/
theorem execution_transitions_unconditional_witness :
    ExecutionStatus.IsTerminal execDone.Status = true ∧
    ((execDone.start 20).Status = executionStatusRunning ∧
     (execDone.complete () 20).Status = executionStatusSuccess ∧
     (execDone.fail "boom" "n1" 20).Status = executionStatusError ∧
     (execDone.cancel 20).Status = executionStatusCancelled ∧
     (execDone.timeout 20).Status = executionStatusTimeout ∧
     (execDone.start 20).Status ≠ execDone.Status) :=
  ⟨by decide, execution_transitions_unconditional execDone 20 () "boom" "n1" (by decide)⟩

/-- C2 counterexample: the source's status vocabulary also contains
Crashed, which `IsTerminal` classifies as terminal even though it is not
one of Success, Error, Cancelled, Timeout. -/
theorem crashed_is_terminal_but_unlisted :
    ExecutionStatus.IsTerminal executionStatusCrashed = true ∧
    executionStatusCrashed ∉ ([executionStatusSuccess, executionStatusError,
      executionStatusCancelled, executionStatusTimeout] : List ExecutionStatus) := by
  decide

/-- C2 (amended): every transition operation assigns a status drawn from
the source's declared constant set {Waiting, Running, Success, Error,
Cancelled, Crashed, Timeout}, and a status is terminal exactly when it is
one of Success, Error, Cancelled, Crashed, or Timeout. -/
theorem execution_status_vocabulary (e : Execution D) (now : Int) (out : D)
    (msg nid newId : String) (zeroD : D) :
    (e.start now).Status ∈ executionStatusValues ∧
    (e.complete out now).Status ∈ executionStatusValues ∧
    (e.fail msg nid now).Status ∈ executionStatusValues ∧
    (e.cancel now).Status ∈ executionStatusValues ∧
    (e.timeout now).Status ∈ executionStatusValues ∧
    (e.createRetry newId now zeroD).Status ∈ executionStatusValues ∧
    (∀ s : ExecutionStatus, ExecutionStatus.IsTerminal s = true ↔
      (s = executionStatusSuccess ∨ s = executionStatusError ∨
       s = executionStatusCancelled ∨ s = executionStatusCrashed ∨
       s = executionStatusTimeout)) := by
  refine ⟨?_, ?_, ?_, ?_, ?_, ?_, ?_⟩
  · show executionStatusRunning ∈ executionStatusValues; decide
  · show executionStatusSuccess ∈ executionStatusValues; decide
  · show executionStatusError ∈ executionStatusValues; decide
  · show executionStatusCancelled ∈ executionStatusValues; decide
  · show executionStatusTimeout ∈ executionStatusValues; decide
  · show executionStatusWaiting ∈ executionStatusValues; decide
  · intro s
    simp [ExecutionStatus.IsTerminal, or_assoc]

/-- C10: each terminal transition sets its status, a non-nil finish time,
and the elapsed milliseconds; `Fail` records the error message and node;
`Complete`, `Cancel`, `Timeout` leave the error fields alone; and all four
leave the identity, input and retry bookkeeping fields unchanged. -/
theorem execution_finish_frame (e : Execution D) (out : D) (msg nid : String)
    (now : Int) :
    ((e.complete out now).Status = executionStatusSuccess ∧
     (e.complete out now).FinishedAt = some now ∧
     (e.complete out now).ExecutionTimeMs = now - e.StartedAt ∧
     (e.complete out now).ErrorMessage = e.ErrorMessage ∧
     (e.complete out now).ErrorNode = e.ErrorNode ∧
     (e.complete out now).coreUnchanged e) ∧
    ((e.fail msg nid now).Status = executionStatusError ∧
     (e.fail msg nid now).FinishedAt = some now ∧
     (e.fail msg nid now).ExecutionTimeMs = now - e.StartedAt ∧
     (e.fail msg nid now).ErrorMessage = msg ∧
     (e.fail msg nid now).ErrorNode = nid ∧
     (e.fail msg nid now).coreUnchanged e) ∧
    ((e.cancel now).Status = executionStatusCancelled ∧
     (e.cancel now).FinishedAt = some now ∧
     (e.cancel now).ExecutionTimeMs = now - e.StartedAt ∧
     (e.cancel now).ErrorMessage = e.ErrorMessage ∧
     (e.cancel now).ErrorNode = e.ErrorNode ∧
     (e.cancel now).coreUnchanged e) ∧
    ((e.timeout now).Status = executionStatusTimeout ∧
     (e.timeout now).FinishedAt = some now ∧
     (e.timeout now).ExecutionTimeMs = now - e.StartedAt ∧
     (e.timeout now).ErrorMessage = e.ErrorMessage ∧
     (e.timeout now).ErrorNode = e.ErrorNode ∧
     (e.timeout now).coreUnchanged e) := by
  refine ⟨⟨rfl, rfl, rfl, rfl, rfl, ?_⟩, ⟨rfl, rfl, rfl, rfl, rfl, ?_⟩,
          ⟨rfl, rfl, rfl, rfl, rfl, ?_⟩, ⟨rfl, rfl, rfl, rfl, rfl, ?_⟩⟩ <;>
    exact ⟨rfl, rfl, rfl, rfl, rfl, rfl, rfl, rfl⟩

/-! ## Node run-state status vocabulary (claim C8) -/

/-- The per-node run-state status set as the spec words it; written from
the spec's words, to be compared with `executionStatusValues` from the
source. -/
def specNodeRunStatuses : List String :=
  ["pending", "ready", "running", "success", "error", "skipped"]

/-- A per-node run state carrying one of the source's declared status
constants (Cancelled), to exercise the status vocabulary. -/
def nodeExecCancelled : NodeExecution Unit :=
  { ID := "ne1", ExecutionID := "e1", NodeID := "n1", NodeType := "http",
    NodeName := "HTTP Request", Status := executionStatusCancelled,
    InputData := (), OutputData := (), ErrorMessage := "",
    ExecutionTimeMs := 0, StartedAt := 0, FinishedAt := none, RetryCount := 0 }

/-- C8 counterexample: a per-node run state whose status is one of the
source's declared constants (Cancelled) lies outside the claimed set
{Pending, Ready, Running, Success, Error, Skipped}; the claimed
Pending/Skipped values are not part of the source's vocabulary at all. -/
theorem node_run_state_outside_claimed_set :
    nodeExecCancelled.Status ∈ executionStatusValues ∧
    nodeExecCancelled.Status ∉ specNodeRunStatuses ∧
    "pending" ∉ executionStatusValues ∧
    "skipped" ∉ executionStatusValues := by
  decide

/-- C8 (amended): a per-node run state shares the execution status type;
whenever its status is one of the declared constants it lies in {Waiting,
Running, Success, Error, Cancelled, Crashed, Timeout}, is never Pending,
Ready or Skipped, and is terminal exactly when it is Success, Error,
Cancelled, Crashed, or Timeout. -/
theorem node_run_state_status_vocabulary (ne : NodeExecution D)
    (h : ne.Status ∈ executionStatusValues) :
    (ExecutionStatus.IsTerminal ne.Status = true ↔
      (ne.Status = executionStatusSuccess ∨ ne.Status = executionStatusError ∨
       ne.Status = executionStatusCancelled ∨ ne.Status = executionStatusCrashed ∨
       ne.Status = executionStatusTimeout)) ∧
    ne.Status ∉ ["pending", "ready", "skipped"] := by
  simp only [executionStatusValues, List.mem_cons, List.not_mem_nil, or_false] at h
  rcases h with h | h | h | h | h | h | h <;> rw [h] <;> decide

/-- Witness for C8 (amended) at the concrete cancelled node run state. -/
theorem node_run_state_status_vocabulary_witness :
    nodeExecCancelled.Status ∈ executionStatusValues ∧
    ((ExecutionStatus.IsTerminal nodeExecCancelled.Status = true ↔
      (nodeExecCancelled.Status = executionStatusSuccess ∨
       nodeExecCancelled.Status = executionStatusError ∨
       nodeExecCancelled.Status = executionStatusCancelled ∨
       nodeExecCancelled.Status = executionStatusCrashed ∨
       nodeExecCancelled.Status = executionStatusTimeout)) ∧
     nodeExecCancelled.Status ∉ ["pending", "ready", "skipped"]) :=
  ⟨by decide, node_run_state_status_vocabulary nodeExecCancelled (by decide)⟩

/-! ## Node registry (package `node`, `internal/domain/node/entity.go`) -/

/-- Go: `type NodeRegistration struct`. `C` stands for the constructor
type `func() NodeInterface`, which the engine treats as opaque. -/
structure NodeRegistration (C : Type) where
  typ : String
  category : String
  constructor : C

/-- Go: the `nodes map[string]NodeRegistration` field of `NodeRegistry`,
modelled as its lookup function. -/
def NodeRegistry (C : Type) := String → Option (NodeRegistration C)

/-- Go: `func NewNodeRegistry() *NodeRegistry` — an empty map. -/
def NewNodeRegistry (C : Type) : NodeRegistry C := fun _ => none

/-- Go: `errors.New("node type already registered: " + nodeType)`. -/
def errAlreadyRegistered (nodeType : String) : String :=
  "node type already registered: " ++ nodeType

/-- Go: `errors.New("node type not found: " + nodeType)` — the lookup
failure the spec names `ErrUnknownNodeType`. -/
def errUnknownNodeType (nodeType : String) : String :=
  "node type not found: " ++ nodeType

/-- Go: `func (r *NodeRegistry) Register(nodeType string, category Category,
constructor func() NodeInterface) error`. The result pairs the returned
error with the registry map after the call, making the in-place map
mutation explicit. -/
def NodeRegistry.register (r : NodeRegistry C) (nodeType category : String)
    (constructor : C) : Option String × NodeRegistry C :=
  match r nodeType with
  | some _ => (some (errAlreadyRegistered nodeType), r)
  | none =>
      (none, fun t => if t = nodeType then
        some ⟨nodeType, category, constructor⟩ else r t)

/-- Go: `func (r *NodeRegistry) Get(nodeType string) (func() NodeInterface,
error)`. -/
def NodeRegistry.get (r : NodeRegistry C) (nodeType : String) : Except String C :=
  match r nodeType with
  | none => .error (errUnknownNodeType nodeType)
  | some registration => .ok registration.constructor

/-- C4: `Get` fails with the unknown-node-type error exactly when the type
is unregistered, and returns the registered constructor (with no error)
exactly when it is registered. -/
theorem registry_get_spec {C : Type} (r : NodeRegistry C) (t : String) :
    (r.get t = .error (errUnknownNodeType t) ↔ r t = none) ∧
    ((∃ c, r.get t = .ok c) ↔ (r t).isSome = true) ∧
    (∀ reg, r t = some reg → r.get t = .ok reg.constructor) := by
  unfold NodeRegistry.get
  cases h : r t <;> simp [h]

/-- A registry with one registered type, built through `Register`. The
constructor type is instantiated at `Nat`. -/
def sampleRegistry : NodeRegistry Nat :=
  ((NewNodeRegistry Nat).register "http" "action" 7).2

/-- Witness for C4 at the concrete one-entry registry. -/
theorem registry_get_spec_witness :
    sampleRegistry "set" = none ∧
    sampleRegistry.get "set" = .error (errUnknownNodeType "set") ∧
    sampleRegistry "http" = some ⟨"http", "action", 7⟩ ∧
    sampleRegistry.get "http" = .ok 7 :=
  ⟨rfl, (registry_get_spec sampleRegistry "set").1.mpr rfl, rfl,
   (registry_get_spec sampleRegistry "http").2.2 ⟨"http", "action", 7⟩ rfl⟩

/-- C9: `Register` errors exactly when the type is already present, leaves
the map unchanged on error, and on success extends the map with exactly
the one new entry, preserving every other entry. -/
theorem registry_register_spec {C : Type} (r : NodeRegistry C) (t cat : String)
    (c : C) :
    ((r.register t cat c).1 = some (errAlreadyRegistered t) ↔ (r t).isSome = true) ∧
    ((r t).isSome = true → (r.register t cat c).2 = r) ∧
    (r t = none →
      (r.register t cat c).1 = none ∧
      (r.register t cat c).2 t = some ⟨t, cat, c⟩ ∧
      ∀ u, u ≠ t → (r.register t cat c).2 u = r u) := by
  unfold NodeRegistry.register
  cases h : r t <;> simp [h]
  intro u hu
  simp [hu]

/-- Witness for C9: registering into the empty registry succeeds and
leaves other keys empty; re-registering an existing type errors and leaves
the map unchanged. -/
theorem registry_register_spec_witness :
    NewNodeRegistry Nat "http" = none ∧
    ((NewNodeRegistry Nat).register "http" "action" 7).1 = none ∧
    ((NewNodeRegistry Nat).register "http" "action" 7).2 "set" =
      NewNodeRegistry Nat "set" ∧
    (sampleRegistry "http").isSome = true ∧
    (sampleRegistry.register "http" "action" 9).1 =
      some (errAlreadyRegistered "http") ∧
    (sampleRegistry.register "http" "action" 9).2 = sampleRegistry :=
  ⟨rfl,
   ((registry_register_spec (NewNodeRegistry Nat) "http" "action" 7).2.2 rfl).1,
   ((registry_register_spec (NewNodeRegistry Nat) "http" "action" 7).2.2 rfl).2.2
     "set" (by decide),
   by decide,
   (registry_register_spec sampleRegistry "http" "action" 9).1.mpr (by decide),
   (registry_register_spec sampleRegistry "http" "action" 9).2.1 (by decide)⟩

/-! ## `ProcessItems` (node utility, `src/unnamed/part_002`) -/

/-- Go: `type NodeOutput struct` (package `node`), restricted to the
fields `ProcessItems` touches: `Data` and `Error` (the error kept as its
message string). -/
structure NodeOutput (α : Type) where
  data : List α
  err : Option String

variable {α : Type}

/-- The loop of Go's `ProcessItems`: `done i` models whether the
`ctx.Done()` channel is closed when iteration `i` runs its `select`, and
`fn i x` models `fn(ctx, item, i)` with an error carried as its message.
The result pairs Go's `(*NodeOutput, error)` return with the list of item
indices the per-item function was actually applied to, which the
cancellation claim is about. -/
def processItemsFrom (done : Nat → Bool) (fn : Nat → α → Except String α)
    (i : Nat) (acc : List α) :
    List α → (Option (NodeOutput α) × Option String) × List Nat
  | [] => ((some ⟨acc, none⟩, none), [])
  | x :: rest =>
    if done i then ((none, some "execution cancelled"), [])
    else
      match fn i x with
      | .error e => ((some ⟨acc, some e⟩, some e), [i])
      | .ok y =>
        let r := processItemsFrom done fn (i + 1) (acc ++ [y]) rest
        (r.1, i :: r.2)

/-- Go: `func ProcessItems(ctx context.Context, input *node.NodeInput,
fn func(...)) (*node.NodeOutput, error)` — starts the loop at index 0
with an empty output accumulator. -/
def ProcessItems (done : Nat → Bool) (fn : Nat → α → Except String α)
    (input : List α) : (Option (NodeOutput α) × Option String) × List Nat :=
  processItemsFrom done fn 0 [] input

lemma processItemsFrom_cancelled (done : Nat → Bool)
    (fn : Nat → α → Except String α) (l : List α) (i : Nat) (acc : List α)
    (k : Nat) (hk : k < l.length) (hdone : done (i + k) = true) :
    (processItemsFrom done fn i acc l).1.2.isSome = true ∧
    ∀ j ∈ (processItemsFrom done fn i acc l).2, j < i + k := by
  induction l generalizing i acc k with
  | nil => simp at hk
  | cons x rest ih =>
    by_cases hd : done i
    · simp [processItemsFrom, hd]
    · cases k with
      | zero =>
        rw [Nat.add_zero] at hdone
        exact absurd hdone (by simp [hd])
      | succ k' =>
        simp only [processItemsFrom, hd, if_false, Bool.false_eq_true]
        cases hfn : fn i x with
        | error e =>
          refine ⟨rfl, ?_⟩
          intro j hj
          simp only [List.mem_singleton] at hj
          omega
        | ok y =>
          have hk' : k' < rest.length := by
            simpa using Nat.lt_of_succ_lt_succ (by simpa using hk)
          have hdone' : done (i + 1 + k') = true := by
            have : i + 1 + k' = i + (k' + 1) := by omega
            rw [this]; exact hdone
          obtain ⟨h1, h2⟩ := ih (i + 1) (acc ++ [y]) k' hk' hdone'
          refine ⟨h1, ?_⟩
          intro j hj
          simp only [List.mem_cons] at hj
          rcases hj with rfl | hj
          · omega
          · have := h2 j hj
            omega

/-- C6: when the context is cancelled at (or before) the iteration of some
item `k` of the input, `ProcessItems` returns a non-nil error and the
per-item function is applied only to items strictly before `k` — never to
item `k` or any later item. -/
theorem processItems_cancellation (done : Nat → Bool)
    (fn : Nat → α → Except String α) (input : List α) (k : Nat)
    (hk : k < input.length) (hdone : done k = true) :
    (ProcessItems done fn input).1.2.isSome = true ∧
    ∀ j ∈ (ProcessItems done fn input).2, j < k := by
  have h := processItemsFrom_cancelled done fn input 0 [] k hk
    (by simpa using hdone)
  simpa [ProcessItems] using h

/-- Witness for C6: a context cancelled from iteration 1 onwards stops a
three-item run with an error, having applied the function to item 0 only. -/
theorem processItems_cancellation_witness :
    (ProcessItems (fun i => i != 0) (fun _ x => Except.ok x)
      ([10, 20, 30] : List Nat)).1.2.isSome = true ∧
    (ProcessItems (fun i => i != 0) (fun _ x => Except.ok x)
      ([10, 20, 30] : List Nat)).2 = [0] :=
  ⟨(processItems_cancellation (fun i => i != 0) (fun _ x => Except.ok x)
      [10, 20, 30] 1 (by decide) (by decide)).1,
   by decide⟩

/-! ## Data Flow Store (spec section 4.2) -/

/-- Modelled from the spec: what a data-flow-store slot holds once
resolved — either the items a `Put` recorded or an explicit skip mark.
The store implementation is not among the engine source files. -/
inductive PortRecord (α : Type) where
  | written (items : List α)
  | skipped
  deriving DecidableEq

/-- Modelled from the spec: the Data Flow Store — a map from
(nodeId, port) pairs to resolved port records, as an association list
where the most recent entry wins. -/
structure FlowStore (α : Type) where
  entries : List ((String × String) × PortRecord α)
  deriving DecidableEq

/-- The empty store an execution starts from. -/
def FlowStore.empty (α : Type) : FlowStore α := ⟨[]⟩

/-- Modelled from the spec: the `ErrDuplicateWrite` programming error. -/
def errDuplicateWrite : String := "duplicate write"

/-- Modelled from the spec: `Get(nodeId, port)` — the record for the pair,
or `none` when the pair was never resolved (the spec's boolean). -/
def FlowStore.get (s : FlowStore α) (nodeId port : String) :
    Option (PortRecord α) :=
  (s.entries.find? (fun e => e.1.1 == nodeId && e.1.2 == port)).map (·.2)

/-- Modelled from the spec: `Put(nodeId, port, items)` records the output
of one node's one port exactly once; a second call for the same pair is
`ErrDuplicateWrite`. The result pairs the returned error with the store
after the call, making mutation explicit. -/
def FlowStore.put (s : FlowStore α) (nodeId port : String) (items : List α) :
    Option String × FlowStore α :=
  if (s.get nodeId port).isSome then (some errDuplicateWrite, s)
  else (none, ⟨((nodeId, port), .written items) :: s.entries⟩)

/-- Modelled from the spec: `MarkSkipped(nodeId, port)` resolves the pair
as explicitly skipped. -/
def FlowStore.markSkipped (s : FlowStore α) (nodeId port : String) :
    FlowStore α :=
  ⟨((nodeId, port), .skipped) :: s.entries⟩

/-- C5: a first `Put` on an unresolved (nodeId, port) succeeds and records
the items; a second `Put` on the same pair returns `ErrDuplicateWrite` and
leaves the store's observable state unchanged. -/
theorem flow_store_put_once (s : FlowStore α) (nodeId port : String)
    (items retried : List α) (h : s.get nodeId port = none) :
    (s.put nodeId port items).1 = none ∧
    ((s.put nodeId port items).2.get nodeId port = some (.written items)) ∧
    ((s.put nodeId port items).2.put nodeId port retried).1 =
      some errDuplicateWrite ∧
    ((s.put nodeId port items).2.put nodeId port retried).2 =
      (s.put nodeId port items).2 := by
  have hput : s.put nodeId port items =
      (none, ⟨((nodeId, port), .written items) :: s.entries⟩) := by
    simp [FlowStore.put, h]
  have hget : FlowStore.get (α := α) ⟨((nodeId, port), .written items) :: s.entries⟩
      nodeId port = some (.written items) := by
    simp [FlowStore.get, List.find?]
  refine ⟨by rw [hput], by rw [hput]; exact hget, ?_, ?_⟩ <;>
    rw [hput] <;> simp [FlowStore.put, hget]

/-- Witness for C5 on the empty store. -/
theorem flow_store_put_once_witness :
    ((FlowStore.empty Nat).put "n1" "main" [1, 2]).1 = none ∧
    (((FlowStore.empty Nat).put "n1" "main" [1, 2]).2.get "n1" "main" =
      some (.written [1, 2])) ∧
    ((((FlowStore.empty Nat).put "n1" "main" [1, 2]).2.put "n1" "main" [3]).1 =
      some errDuplicateWrite) ∧
    ((((FlowStore.empty Nat).put "n1" "main" [1, 2]).2.put "n1" "main" [3]).2 =
      ((FlowStore.empty Nat).put "n1" "main" [1, 2]).2) :=
  flow_store_put_once (FlowStore.empty Nat) "n1" "main" [1, 2] [3] (by decide)

/-! ## Node Task Runner retry loop (spec sections 4.3 and 8) -/

/-- Modelled from the spec: the sleep before the retry that follows failed
attempt number `attempt` (counted from 0) — `retryDelay * backoffFactor ^
attempt`, capped at the configured ceiling. Durations are in milliseconds.
The runner implementation is not among the engine source files. -/
def retryDelayAt (retryDelayMs backoffFactor capMs attempt : Nat) : Nat :=
  min (retryDelayMs * backoffFactor ^ attempt) capMs

/-- Modelled from the spec: the retry loop of the Node Task Runner, from
attempt number `attempt` with `remaining` retries still allowed
(`remaining = maxRetries - attempt`). `execute a` tells whether invocation
number `a` of `Node.Execute` succeeds, and `retryable` whether its errors
classify as retryable. Returns (number of `Execute` invocations, sleeps
performed in order, overall success). -/
def runRetriesFrom (retryDelayMs backoffFactor capMs : Nat)
    (execute : Nat → Bool) (retryable : Bool) (attempt : Nat) :
    Nat → Nat × List Nat × Bool
  | 0 => if execute attempt then (1, [], true) else (1, [], false)
  | remaining + 1 =>
    if execute attempt then (1, [], true)
    else if retryable then
      let r := runRetriesFrom retryDelayMs backoffFactor capMs execute
        retryable (attempt + 1) remaining
      (r.1 + 1, retryDelayAt retryDelayMs backoffFactor capMs attempt :: r.2.1,
       r.2.2)
    else (1, [], false)

/-- Modelled from the spec: run a node with the given retry policy —
attempt 0 first, then up to `maxRetries` retries. -/
def runWithRetry (maxRetries retryDelayMs backoffFactor capMs : Nat)
    (execute : Nat → Bool) (retryable : Bool) : Nat × List Nat × Bool :=
  runRetriesFrom retryDelayMs backoffFactor capMs execute retryable 0 maxRetries

/-- C7: with `maxRetries = 2`, `retryDelay = 100 ms`, `backoffFactor = 2`
and any ceiling of at least 200 ms, an always-failing retryable node is
invoked exactly 3 times, sleeping 100 ms before the first retry and
200 ms before the second — each equal to `retryDelay * backoffFactor ^
(k - 1)` for retry `k`, below the cap. -/
theorem retry_policy_three_attempts (capMs : Nat) (hcap : 200 ≤ capMs) :
    (runWithRetry 2 100 2 capMs (fun _ => false) true).1 = 3 ∧
    (runWithRetry 2 100 2 capMs (fun _ => false) true).2.1 = [100, 200] ∧
    (runWithRetry 2 100 2 capMs (fun _ => false) true).2.2 = false := by
  have h1 : retryDelayAt 100 2 capMs 0 = 100 := by
    simp only [retryDelayAt, pow_zero, Nat.mul_one]
    omega
  have h2 : retryDelayAt 100 2 capMs 1 = 200 := by
    simp only [retryDelayAt, pow_one]
    omega
  simp [runWithRetry, runRetriesFrom, h1, h2]

/-- Witness for C7 at the configured ceiling of 30000 ms. -/
theorem retry_policy_three_attempts_witness :
    (runWithRetry 2 100 2 30000 (fun _ => false) true).1 = 3 ∧
    (runWithRetry 2 100 2 30000 (fun _ => false) true).2.1 = [100, 200] ∧
    (runWithRetry 2 100 2 30000 (fun _ => false) true).2.2 = false :=
  retry_policy_three_attempts 30000 (by decide)

/-! ## Execution Graph builder (spec section 4.1)

The `Build` function itself is not among the engine source files — only
its error sentinels (`ErrConnectionSelfLoop`, `ErrWorkflowCycleDetected`
in `internal/domain/workflow/errors.go`) are declared — so the builder is
modelled from the spec. -/

/-- Modelled from the spec: `ConnectionSpec{sourceNodeId, sourceOutputPort,
targetNodeId, targetInputPort}`. -/
structure ConnectionSpec where
  sourceNodeId : String
  sourceOutputPort : String
  targetNodeId : String
  targetInputPort : String
  deriving DecidableEq

/-- Modelled from the spec: `NodeSpec{id, type, parameters, maxRetries,
retryDelay, continueOnFail, timeoutOverride}` (durations in ms,
parameters as a key/value list). -/
structure NodeSpec where
  id : String
  typ : String
  parameters : List (String × String)
  maxRetries : Nat
  retryDelayMs : Nat
  continueOnFail : Bool
  timeoutOverrideMs : Option Nat
  deriving DecidableEq

/-- Modelled from the spec: a `WorkflowDefinition` is an ordered set of
node specs plus a set of connection specs. -/
structure WorkflowDefinition where
  nodes : List NodeSpec
  connections : List ConnectionSpec
  deriving DecidableEq

/-- The ids of a definition's nodes. -/
def nodeIds (d : WorkflowDefinition) : List String := d.nodes.map (·.id)

/-- The three structural build errors of the spec (`ErrUnknownNode`,
`ErrSelfLoop` aka `ErrConnectionSelfLoop`, `ErrCycle` aka
`ErrWorkflowCycleDetected`). -/
inductive BuildErr where
  | unknownNode
  | selfLoop
  | cycle
  deriving DecidableEq

/-- Modelled from the spec: the immutable `ExecutionGraph` produced by
`Build`; the edge maps are offered as the lookup functions below. -/
structure Graph where
  nodes : List NodeSpec
  connections : List ConnectionSpec
  deriving DecidableEq

/-- Modelled from the spec: `OutgoingPorts(id)` — pure lookup. -/
def Graph.OutgoingPorts (g : Graph) (id : String) : List ConnectionSpec :=
  g.connections.filter (·.sourceNodeId == id)

/-- Modelled from the spec: `IncomingPorts(id)` — pure lookup. -/
def Graph.IncomingPorts (g : Graph) (id : String) : List ConnectionSpec :=
  g.connections.filter (·.targetNodeId == id)

/-- Modelled from the spec: `RootNodes()` — nodes with no incoming edges. -/
def Graph.RootNodes (g : Graph) : List String :=
  (g.nodes.map (·.id)).filter
    (fun n => !(g.connections.any (·.targetNodeId == n)))

/-- One round of Kahn's algorithm: drop every remaining node of zero
indegree, i.e. keep exactly the nodes that still have an incoming
connection from a remaining node. -/
def kahnRound (conns : List ConnectionSpec) (remaining : List String) :
    List String :=
  remaining.filter (fun n =>
    conns.any (fun c => c.targetNodeId == n && remaining.contains c.sourceNodeId))

/-- Kahn's algorithm, fuelled: repeatedly remove zero-indegree nodes. -/
def kahnIter (conns : List ConnectionSpec) : Nat → List String → List String
  | 0, remaining => remaining
  | fuel + 1, remaining => kahnIter conns fuel (kahnRound conns remaining)

/-- Modelled from the spec: whether Kahn's algorithm orders all nodes —
running as many rounds as there are nodes leaves nothing behind. Nodes
remaining at the fixpoint witness a cycle. -/
def kahnOrdersAll (d : WorkflowDefinition) : Bool :=
  (kahnIter d.connections (nodeIds d).length (nodeIds d)).isEmpty

/-- Modelled from the spec: `Build(def) (*Graph, error)` — fails with
`ErrUnknownNode` if a connection references a missing id, `ErrSelfLoop`
for self-referencing connections, `ErrCycle` if Kahn's algorithm cannot
order all nodes, and otherwise returns the immutable graph. -/
def Build (d : WorkflowDefinition) : Except BuildErr Graph :=
  if ∃ c ∈ d.connections,
      c.sourceNodeId ∉ nodeIds d ∨ c.targetNodeId ∉ nodeIds d then
    .error .unknownNode
  else if ∃ c ∈ d.connections, c.sourceNodeId = c.targetNodeId then
    .error .selfLoop
  else if kahnOrdersAll d = false then
    .error .cycle
  else
    .ok ⟨d.nodes, d.connections⟩

/-- C3: `Build` fails with `ErrUnknownNode` when a connection references a
missing node id; on well-referenced definitions it fails with
`ErrSelfLoop` when a connection is self-referencing; on well-referenced,
self-loop-free definitions it fails with `ErrCycle` exactly when Kahn's
algorithm cannot order all nodes, and returns the graph with no error
when it can. -/
theorem build_spec (d : WorkflowDefinition) :
    ((∃ c ∈ d.connections,
        c.sourceNodeId ∉ nodeIds d ∨ c.targetNodeId ∉ nodeIds d) →
      Build d = .error .unknownNode) ∧
    ((∀ c ∈ d.connections,
        c.sourceNodeId ∈ nodeIds d ∧ c.targetNodeId ∈ nodeIds d) →
      (∃ c ∈ d.connections, c.sourceNodeId = c.targetNodeId) →
      Build d = .error .selfLoop) ∧
    ((∀ c ∈ d.connections,
        c.sourceNodeId ∈ nodeIds d ∧ c.targetNodeId ∈ nodeIds d) →
      (∀ c ∈ d.connections, c.sourceNodeId ≠ c.targetNodeId) →
      (Build d = .error .cycle ↔ kahnOrdersAll d = false)) ∧
    ((∀ c ∈ d.connections,
        c.sourceNodeId ∈ nodeIds d ∧ c.targetNodeId ∈ nodeIds d) →
      (∀ c ∈ d.connections, c.sourceNodeId ≠ c.targetNodeId) →
      kahnOrdersAll d = true →
      Build d = .ok ⟨d.nodes, d.connections⟩) := by
  have hwell : (∀ c ∈ d.connections,
      c.sourceNodeId ∈ nodeIds d ∧ c.targetNodeId ∈ nodeIds d) →
      ¬ ∃ c ∈ d.connections,
        c.sourceNodeId ∉ nodeIds d ∨ c.targetNodeId ∉ nodeIds d := by
    intro hall ⟨c, hc, hbad⟩
    rcases hbad with hbad | hbad
    · exact hbad (hall c hc).1
    · exact hbad (hall c hc).2
  have hnoself : (∀ c ∈ d.connections, c.sourceNodeId ≠ c.targetNodeId) →
      ¬ ∃ c ∈ d.connections, c.sourceNodeId = c.targetNodeId := by
    intro hall ⟨c, hc, heq⟩
    exact hall c hc heq
  refine ⟨?_, ?_, ?_, ?_⟩
  · intro h
    simp only [Build, if_pos h]
  · intro hw hs
    simp only [Build, if_neg (hwell hw), if_pos hs]
  · intro hw hs
    simp only [Build, if_neg (hwell hw), if_neg (hnoself hs)]
    by_cases hk : kahnOrdersAll d = false
    · simp [hk]
    · simp [hk]
  · intro hw hs hk
    simp only [Build, if_neg (hwell hw), if_neg (hnoself hs)]
    simp [hk]

/-- A definition whose connection targets a node id that does not exist. -/
def defUnknownRef : WorkflowDefinition :=
  ⟨[⟨"a", "start", [], 0, 0, false, none⟩],
   [⟨"a", "main", "ghost", "main"⟩]⟩

/-- A definition with a self-referencing connection. -/
def defSelfLoop : WorkflowDefinition :=
  ⟨[⟨"a", "start", [], 0, 0, false, none⟩],
   [⟨"a", "main", "a", "main"⟩]⟩

/-- A two-node definition with a cycle a → b → a. -/
def defCycle : WorkflowDefinition :=
  ⟨[⟨"a", "start", [], 0, 0, false, none⟩, ⟨"b", "http", [], 0, 0, false, none⟩],
   [⟨"a", "main", "b", "main"⟩, ⟨"b", "main", "a", "main"⟩]⟩

/-- A well-formed linear definition a → b. -/
def defLinear : WorkflowDefinition :=
  ⟨[⟨"a", "start", [], 0, 0, false, none⟩, ⟨"b", "http", [], 0, 0, false, none⟩],
   [⟨"a", "main", "b", "main"⟩]⟩

/-- Witness for C3: each of the four build outcomes on a concrete
definition. -/
theorem build_spec_witness :
    Build defUnknownRef = .error .unknownNode ∧
    Build defSelfLoop = .error .selfLoop ∧
    Build defCycle = .error .cycle ∧
    Build defLinear = .ok ⟨defLinear.nodes, defLinear.connections⟩ :=
  ⟨(build_spec defUnknownRef).1 (by decide),
   (build_spec defSelfLoop).2.1 (by decide) (by decide),
   ((build_spec defCycle).2.2.1 (by decide) (by decide)).mpr (by decide),
   (build_spec defLinear).2.2.2 (by decide) (by decide) (by decide)⟩

end GoN8n
